import Mathlib

/-!
# Verification of the agentic-travel-architect pipeline

Shallow embedding of the two source files of the repository:

* `mcp_server.py` — the FastMCP tool server exposing the `search_tourism`
  capability (batch slicing, per-query search with inline error capture,
  per-result truncation, skipped-query note).
* `agent.py` — the LangGraph workflow (planner → executor → writer) with an
  interrupt before the executor node, an in-memory checkpointer
  (`MemorySaver`), and the approval-driven main loop.

Python strings are modelled as `String`, Python exceptions as the inductive
`PyExc`, fallible calls as `Except PyExc`, and the external collaborators
(the structured-output LLM, the Tavily search client, the MCP session) as
function parameters, so every theorem is quantified over their behaviour.
-/

namespace TravelArchitect

/-- Python exception values as they travel through `try`/`except` blocks.
`toolExecutionError` is the wrapper type named by the specification
(`ToolExecutionError` carrying the original cause); the code of
`agent.py` never constructs it. -/
inductive PyExc where
  | err (msg : String)
  | keyError (key : String)
  | toolExecutionError (cause : PyExc)
deriving DecidableEq, Repr

/-- Python `str(e)` rendering of an exception, used by
`mcp_server.py` line 91 when formatting an inline error line. -/
def PyExc.str : PyExc → String
  | .err m => m
  | .keyError k => k
  | .toolExecutionError c => c.str

/-! ## `mcp_server.py` — the tool process capability handler -/

namespace McpServer

/-- `mcp_server.py` line 21. -/
def MAX_QUERIES_PER_BATCH : Nat := 3

/-- `mcp_server.py` line 22. -/
def MAX_CHARS_PER_RESULT : Nat := 300

/-- One entry of `response['results']` as read by `mcp_server.py`
lines 76–84: the code accesses `title`, `url` and `content` with
`dict.get` defaults, so each field is optional. -/
structure TavilyResult where
  title : Option String
  url : Option String
  content : Option String
deriving DecidableEq, Repr

/-- The response dictionary returned by `tavily.search`
(`mcp_server.py` lines 61–66): an optional direct answer and a list of
per-source results. -/
structure TavilyResponse where
  answer : Option String
  results : List TavilyResult
deriving DecidableEq, Repr

/-- `mcp_server.py` line 79:
`content[:MAX_CHARS_PER_RESULT] + "..." if len(content) > MAX_CHARS_PER_RESULT else content`. -/
def clean_content (content : String) : String :=
  if MAX_CHARS_PER_RESULT < content.length then
    content.take MAX_CHARS_PER_RESULT ++ "..."
  else content

/-- `mcp_server.py` lines 69–85: the formatted section for one query whose
search succeeded — the header naming the query, the AI summary when the
`answer` field is truthy (present and non-empty), then one block per
result with title/link/truncated content. -/
def querySummary (query : String) (response : TavilyResponse) : String :=
  let summary := "### Results for: \x27" ++ query ++ "\x27\n"
  let summary :=
    if (response.answer.getD "").isEmpty then summary
    else summary ++ "**AI Summary**: " ++ response.answer.getD "" ++ "\n\n"
  response.results.foldl (fun summary res =>
    summary ++ "- **Title**: " ++ res.title.getD "N/A"
      ++ "\n  **Link**: " ++ res.url.getD "#"
      ++ "\n  **Content**: " ++ clean_content (res.content.getD "") ++ "\n\n") summary

/-- `mcp_server.py` lines 54–91: one iteration of the execution loop.
The `try` block formats the section on success; `except Exception`
catches any search failure and renders it inline as
`Error searching '<query>': <str(e)>`. -/
def querySection (search : String → Except PyExc TavilyResponse) (query : String) : String :=
  match search query with
  | .ok response => querySummary query response
  | .error e => "Error searching \x27" ++ query ++ "\x27: " ++ e.str

/-- The trailing note of `mcp_server.py` line 95, parameterised by the
skipped-query count `len(queries) - MAX_QUERIES_PER_BATCH`. -/
def skippedNote (skipped : Nat) : String :=
  "\n*Note: " ++ toString skipped ++ " queries were skipped to conserve resources.*"

/-- `mcp_server.py` lines 33–97, the `search_tourism` tool handler.
`TAVILY_API_KEY` models `os.getenv("TAVILY_API_KEY")` (absent → `none`),
whose Python truthiness test `if not TAVILY_API_KEY` also treats the
empty string as missing; `search` models `tavily.search` on one query,
which may raise. The result pairs the returned text with the list of
queries actually submitted to `tavily.search`, in submission order
(the effect trace of the execution loop). -/
def search_tourism (TAVILY_API_KEY : Option String)
    (search : String → Except PyExc TavilyResponse)
    (queries : List String) : String × List String :=
  if (TAVILY_API_KEY.getD "").isEmpty then
    ("Error: Server misconfigured (Missing API Key).", [])
  else
    let processing_queries := queries.take MAX_QUERIES_PER_BATCH
    let consolidated_results := processing_queries.map (querySection search)
    let consolidated_results :=
      if MAX_QUERIES_PER_BATCH < queries.length then
        consolidated_results ++ [skippedNote (queries.length - MAX_QUERIES_PER_BATCH)]
      else consolidated_results
    (String.intercalate "\n" consolidated_results, processing_queries)

end McpServer

/-! ## Concrete stub fixtures for witnesses -/

namespace McpServer

/-- A stub search client that succeeds on every query with an empty
response. -/
def stubOkSearch : String → Except PyExc TavilyResponse :=
  fun _ => .ok ⟨none, []⟩

/-- A stub search client that fails on the query `"b"` and succeeds on
every other query. -/
def stubFailB : String → Except PyExc TavilyResponse :=
  fun q => if q = "b" then .error (.err "boom") else .ok ⟨none, []⟩

/-- A stub exception family: every query fails with the same error. -/
def stubFailAll : String → PyExc := fun _ => .err "down"

end McpServer

/-! ## `agent.py` — executor-side extraction of tool results -/

/-- One typed content block of an MCP tool response as read by
`agent.py` lines 119–121: the code branches on `content.type` and reads
`content.text` only for blocks whose type is `"text"`. -/
structure ContentBlock where
  type : String
  text : String
deriving DecidableEq, Repr

/-- `agent.py` lines 118–121: the extraction loop
`final_text = ""` / `for content in result.content:` /
`if content.type == "text": final_text += content.text`. -/
def extractFinalText (contents : List ContentBlock) : String :=
  contents.foldl
    (fun final_text content =>
      if content.type = "text" then final_text ++ content.text else final_text) ""

/-! ## `agent.py` — the LangGraph workflow and its execution semantics -/

namespace Agent

/-- Modelled from the spec: `schemas.py` (imported at `agent.py`
line 21) is not among the sources; per spec section 3, a StrategyObject
holds the reasoning text and the ordered query list, exactly the two
fields `agent.py` reads (lines 95, 208–209). -/
structure SearchStrategy where
  reasoning : String
  queries : List String
deriving DecidableEq, Repr

/-- Modelled from the spec: `schemas.py` is not among the sources; per
spec section 3, an ArtifactObject carries at least the `destination`
and `overview` fields that `main` reads (`agent.py` lines 222–224). -/
structure TripItinerary where
  destination : String
  overview : String
deriving DecidableEq, Repr

/-- `agent.py` lines 46–53, the `AgentState` TypedDict. A key of a
TypedDict may be absent until some node's returned update sets it, so
each field is optional; reading an absent key raises `KeyError`. -/
structure AgentState where
  user_request : Option String := none
  search_strategy : Option SearchStrategy := none
  search_results : Option String := none
  final_itinerary : Option TripItinerary := none
deriving DecidableEq, Repr

/-- The three nodes added to the graph (`agent.py` lines 160–162). -/
inductive NodeName where
  | planner
  | executor
  | writer
deriving DecidableEq, Repr

/-- Observable side effects of a node run: a structured-output LLM
call (planner and writer), the spawn of the MCP server subprocess
(`stdio_client`, `agent.py` line 105), and the tool invocation
(`session.call_tool`, line 115). -/
inductive Event where
  | llmCall (node : NodeName)
  | spawnSubprocess
  | toolCall (queries : List String)
deriving DecidableEq, Repr

/-- `true` exactly for the events that reach the Tool Process
Transport: the subprocess spawn and the tool invocation. -/
def Event.isToolEffect : Event → Bool
  | .spawnSubprocess => true
  | .toolCall _ => true
  | .llmCall _ => false

/-- `true` exactly for tool invocations. -/
def Event.isToolCall : Event → Bool
  | .toolCall _ => true
  | _ => false

/-- The deterministic external collaborators of one run: the
structured-output planner call (`agent.py` lines 67–84), the
executor's MCP round trip (`agent.py` lines 98–126, which may raise),
and the structured-output writer call (lines 139–151). -/
structure Stubs where
  plan : String → SearchStrategy
  runTool : List String → Except PyExc String
  write : String → String → TripItinerary

/-- One node's execution (`agent.py` lines 57–153): the partial state
update it returns, merged into the state (or the exception it raises),
together with the side effects it emitted. The executor emits its
spawn and tool-call events whether or not the round trip then fails. -/
def runNode (stubs : Stubs) : NodeName → AgentState →
    Except PyExc AgentState × List Event
  | .planner, s =>
    match s.user_request with
    | none => (.error (.keyError "user_request"), [])
    | some req =>
      (.ok { s with search_strategy := some (stubs.plan req) }, [.llmCall .planner])
  | .executor, s =>
    match s.search_strategy with
    | none => (.error (.keyError "search_strategy"), [])
    | some strategy =>
      match stubs.runTool strategy.queries with
      | .ok results =>
        (.ok { s with search_results := some results },
          [.spawnSubprocess, .toolCall strategy.queries])
      | .error e => (.error e, [.spawnSubprocess, .toolCall strategy.queries])
  | .writer, s =>
    match s.user_request, s.search_results with
    | some req, some results =>
      (.ok { s with final_itinerary := some (stubs.write req results) },
        [.llmCall .writer])
    | none, _ => (.error (.keyError "user_request"), [])
    | _, none => (.error (.keyError "search_results"), [])

/-- The linear graph of `agent.py` lines 157–168: entry point
`planner`, then `executor`, then `writer`, then END. -/
def graphNodes : List NodeName := [.planner, .executor, .writer]

/-- `agent.py` line 176: the graph is compiled with
`interrupt_before` listing exactly the executor node. -/
def interruptGate : NodeName → Bool
  | .executor => true
  | _ => false

/-- Run the pending node list in order, halting (without running it)
before any node behind the interrupt gate; returns the outcome, the
emitted events, and the nodes still pending (recorded in the
checkpoint). -/
def execNodes (stubs : Stubs) : List NodeName → AgentState →
    Except PyExc AgentState × List Event × List NodeName
  | [], s => (.ok s, [], [])
  | n :: rest, s =>
    if interruptGate n then (.ok s, [], n :: rest)
    else
      match runNode stubs n s with
      | (.ok s2, ev) =>
        match execNodes stubs rest s2 with
        | (r, evs, pending) => (r, ev ++ evs, pending)
      | (.error e, ev) => (.error e, ev, [])

/-- Resuming with `app.ainvoke(None, config)` (`agent.py` line 217)
runs the node the interrupt stopped at, then continues as
`execNodes`. -/
def resumeNodes (stubs : Stubs) : List NodeName → AgentState →
    Except PyExc AgentState × List Event × List NodeName
  | [], s => (.ok s, [], [])
  | n :: rest, s =>
    match runNode stubs n s with
    | (.ok s2, ev) =>
      match execNodes stubs rest s2 with
      | (r, evs, pending) => (r, ev ++ evs, pending)
    | (.error e, ev) => (.error e, ev, [])

/-- A single uninterrupted pass over a node list, ignoring the
interrupt gate: the reference run for refinement statements. -/
def runAllNodes (stubs : Stubs) : List NodeName → AgentState →
    Except PyExc AgentState × List Event
  | [], s => (.ok s, [])
  | n :: rest, s =>
    match runNode stubs n s with
    | (.ok s2, ev) =>
      match runAllNodes stubs rest s2 with
      | (r, evs) => (r, ev ++ evs)
    | (.error e, ev) => (.error e, ev)

/-- A checkpoint: the accumulated state snapshot plus the nodes still
to run (spec section 3, Checkpoint). -/
structure Checkpoint where
  state : AgentState
  pending : List NodeName
deriving DecidableEq, Repr

/-- The `MemorySaver` session store (`agent.py` line 171), keyed by the
`thread_id` of the session: a mapping living in the memory of the
orchestrating process. -/
abbrev Store := String → Option Checkpoint

/-- A freshly constructed `MemorySaver()` holds no checkpoint. -/
def emptyStore : Store := fun _ => none

/-- Writing the latest checkpoint of one session. -/
def putCheckpoint (store : Store) (threadId : String) (cp : Checkpoint) : Store :=
  fun k => if k = threadId then some cp else store k

/-- `MemorySaver` keeps its checkpoints only in the memory of the
running process; when the orchestrating process exits and a new one
starts, `agent.py` line 171 runs again and the fresh `MemorySaver()`
is empty, whatever the store of the previous process held. -/
def storeAfterRestart (_ : Store) : Store := emptyStore

/-- `agent.py` lines 199–204, phase 1: stream the graph from the
initial state (only `user_request` set) until the interrupt; on
success the checkpoint of the session records the state so far and the
pending nodes. -/
def startSession (stubs : Stubs) (store : Store) (threadId userRequest : String) :
    Except PyExc Store × List Event :=
  let s0 : AgentState := { user_request := some userRequest }
  match execNodes stubs graphNodes s0 with
  | (.ok s1, evs, pending) =>
    (.ok (putCheckpoint store threadId ⟨s1, pending⟩), evs)
  | (.error e, evs, _) => (.error e, evs)

/-- The store held by the process right after phase 1 (phase 1 cannot
fail: the planner stub is total and `user_request` is set). -/
def startStore (stubs : Stubs) (threadId userRequest : String) : Store :=
  match (startSession stubs emptyStore threadId userRequest).1 with
  | .ok store => store
  | .error _ => emptyStore

/-- `agent.py` lines 211–234: the approval decision. Rejection takes
the `else` branch of line 233 — log a warning and terminate, without
touching the graph. Approval resumes the checkpointed session with
`ainvoke(None)` and reads the `final_itinerary` field of the resulting
state; a missing checkpoint cannot replay any state and surfaces as
the spec's `SessionNotFoundError`. -/
def decideApproval (stubs : Stubs) (store : Store) (threadId : String)
    (approved : Bool) : Except PyExc (Option TripItinerary × Store) × List Event :=
  if approved then
    match store threadId with
    | none => (.error (.err "SessionNotFound"), [])
    | some cp =>
      match resumeNodes stubs cp.pending cp.state with
      | (.ok s2, evs, pending) =>
        (.ok (s2.final_itinerary, putCheckpoint store threadId ⟨s2, pending⟩), evs)
      | (.error e, evs, _) => (.error e, evs)
  else (.ok (none, store), [])

/-- One orchestration step: run the next pending node of the session. -/
def stepConfig (stubs : Stubs) :
    AgentState × List NodeName → AgentState × List NodeName → Prop
  | (s, pending), (s2, pending2) =>
    ∃ n rest ev, pending = n :: rest ∧ pending2 = rest ∧
      runNode stubs n s = (.ok s2, ev)

/-- The configurations a session started on `userRequest` can reach:
the initial configuration and everything one orchestration step away. -/
inductive ReachableConfig (stubs : Stubs) (userRequest : String) :
    AgentState × List NodeName → Prop
  | init : ReachableConfig stubs userRequest
      ({ user_request := some userRequest }, graphNodes)
  | step (c c2) : ReachableConfig stubs userRequest c → stepConfig stubs c c2 →
      ReachableConfig stubs userRequest c2

/-- `AgentState` fields are populated in pipeline order: no field is
set while the field before it is unset. -/
def orderedState (s : AgentState) : Prop :=
  (s.search_strategy.isSome → s.user_request.isSome) ∧
  (s.search_results.isSome → s.search_strategy.isSome) ∧
  (s.final_itinerary.isSome → s.search_results.isSome)

/-- Once a field is set, the later state keeps its exact value. -/
def extendsState (s s2 : AgentState) : Prop :=
  (∀ v, s.user_request = some v → s2.user_request = some v) ∧
  (∀ v, s.search_strategy = some v → s2.search_strategy = some v) ∧
  (∀ v, s.search_results = some v → s2.search_results = some v) ∧
  (∀ v, s.final_itinerary = some v → s2.final_itinerary = some v)

/-- The exact shapes of the four configurations a session can be in:
after start, after the planner, after the executor (which requires a
successful tool round trip), and after the writer. -/
def configShape (stubs : Stubs) (userRequest : String) :
    AgentState × List NodeName → Prop
  | (s, pending) =>
    (pending = graphNodes ∧ s = { user_request := some userRequest }) ∨
    (pending = [.executor, .writer] ∧
      s = { user_request := some userRequest,
            search_strategy := some (stubs.plan userRequest) }) ∨
    (∃ results, pending = [.writer] ∧
      stubs.runTool (stubs.plan userRequest).queries = .ok results ∧
      s = { user_request := some userRequest,
            search_strategy := some (stubs.plan userRequest),
            search_results := some results }) ∨
    (∃ results, pending = ([] : List NodeName) ∧
      stubs.runTool (stubs.plan userRequest).queries = .ok results ∧
      s = { user_request := some userRequest,
            search_strategy := some (stubs.plan userRequest),
            search_results := some results,
            final_itinerary := some (stubs.write userRequest results) })

/-- The MCP client session operations used by `executor_node`
(`agent.py` lines 105–115), each of which may raise. -/
structure McpTransport where
  sessionInit : Except PyExc Unit
  listTools : Except PyExc (List String)
  callTool : String → List String → Except PyExc (List ContentBlock)

/-- `agent.py` lines 105–126, the body of the `try` block of
`executor_node`: handshake (`session.initialize()`), capability
listing (`session.list_tools()`), tool invocation
(`session.call_tool`), extraction of the text blocks. -/
def executorTryBlock (t : McpTransport) (queries : List String) :
    Except PyExc String :=
  match t.sessionInit with
  | .error e => .error e
  | .ok _ =>
    match t.listTools with
    | .error e => .error e
    | .ok _ =>
      match t.callTool "search_tourism" queries with
      | .error e => .error e
      | .ok result => .ok (extractFinalText result)

/-- `agent.py` lines 104–130: the whole `try`/`except` of
`executor_node`. The `except Exception as e` arm logs the failure and
executes `raise e`, re-raising the very same exception object. -/
def executorNodeCall (t : McpTransport) (queries : List String) :
    Except PyExc String :=
  match executorTryBlock t queries with
  | .ok finalText => .ok finalText
  | .error e => .error e

/-- `true` iff the call raised the specification's
`ToolExecutionError` wrapper. -/
def raisedToolExecutionError : Except PyExc String → Bool
  | .error e =>
    match e with
    | .toolExecutionError _ => true
    | _ => false
  | .ok _ => false

/-! ### Concrete stub fixtures for witnesses and counterexamples -/

/-- A deterministic planner stub. -/
def stubPlanner : String → SearchStrategy := fun _ => ⟨"reasoning", ["q1"]⟩

/-- A deterministic always-succeeding tool stub. -/
def stubRunTool : List String → Except PyExc String := fun _ => .ok "results"

/-- A deterministic writer stub. -/
def stubWriter : String → String → TripItinerary :=
  fun _ _ => ⟨"Rio de Janeiro", "overview"⟩

/-- Deterministic collaborators for a successful run. -/
def stubsOk : Stubs := ⟨stubPlanner, stubRunTool, stubWriter⟩

/-- Deterministic collaborators whose tool round trip always fails. -/
def stubsFailTool : Stubs := ⟨stubPlanner, fun _ => .error (.err "boom"), stubWriter⟩

/-- A transport whose handshake fails. -/
def stubTransportFail : McpTransport :=
  ⟨.error (.err "boom"), .ok [], fun _ _ => .ok []⟩

end Agent

end TravelArchitect

namespace TravelArchitect

open McpServer Agent

theorem String_join_cons (s : String) (l : List String) :
    String.join (s :: l) = s ++ String.join l := by
  apply String.ext
  simp

theorem extractFinalText_foldl (contents : List ContentBlock) (acc : String) :
    contents.foldl
        (fun t c => if c.type = "text" then t ++ c.text else t) acc =
      acc ++ String.join ((contents.filter fun c => c.type = "text").map fun c => c.text) := by
  induction contents generalizing acc with
  | nil => simp [String.join]
  | cons c cs ih =>
      by_cases h : c.type = "text" <;>
        simp [h, ih, String_join_cons, String.append_assoc]

/-- C6: content strictly longer than `MAX_CHARS_PER_RESULT` (= 300)
characters is rendered as exactly its first 300 characters followed by
the `"..."` marker, and content of at most 300 characters is passed
through unchanged. -/
theorem clean_content_truncation (content : String) :
    (MAX_CHARS_PER_RESULT < content.length →
      clean_content content = content.take MAX_CHARS_PER_RESULT ++ "..." ∧
      (content.take MAX_CHARS_PER_RESULT).length = MAX_CHARS_PER_RESULT ∧
      (content.take MAX_CHARS_PER_RESULT).data = content.data.take MAX_CHARS_PER_RESULT) ∧
    (content.length ≤ MAX_CHARS_PER_RESULT → clean_content content = content) := by
  constructor
  · intro h
    refine ⟨by simp [clean_content, h], ?_, String.data_take ..⟩
    have hd : content.data.length = content.length := rfl
    simp only [String.length, String.data_take]
    rw [List.length_take]
    omega
  · intro h
    simp [clean_content, Nat.not_lt.mpr h]

/-- C4: with more than `MAX_QUERIES_PER_BATCH` (= 3) input queries, the
handler submits exactly the first 3 queries to the search client, in
input order (no excess query is executed), and the output text is the
sections of those 3 queries followed by a trailing note carrying the
exact skipped count `len(queries) - 3`. -/
theorem search_tourism_batch_cap (key : Option String)
    (search : String → Except PyExc TavilyResponse) (queries : List String)
    (hkey : (key.getD "").isEmpty = false)
    (hlen : MAX_QUERIES_PER_BATCH < queries.length) :
    (search_tourism key search queries).2 = queries.take MAX_QUERIES_PER_BATCH ∧
    (search_tourism key search queries).1 =
      String.intercalate "\n"
        ((queries.take MAX_QUERIES_PER_BATCH).map (querySection search) ++
          [skippedNote (queries.length - MAX_QUERIES_PER_BATCH)]) := by
  constructor <;> simp [search_tourism, hkey, hlen]

/-- Witness for `search_tourism_batch_cap`: four queries against a stub
search client — the fourth is dropped and the note reports 1 skipped. -/
theorem search_tourism_batch_cap_witness :
    ((some "k" : Option String).getD "").isEmpty = false ∧
    MAX_QUERIES_PER_BATCH < (["a", "b", "c", "d"] : List String).length ∧
    ((search_tourism (some "k") stubOkSearch ["a", "b", "c", "d"]).2 =
        (["a", "b", "c", "d"] : List String).take MAX_QUERIES_PER_BATCH ∧
      (search_tourism (some "k") stubOkSearch ["a", "b", "c", "d"]).1 =
        String.intercalate "\n"
          (((["a", "b", "c", "d"] : List String).take MAX_QUERIES_PER_BATCH).map
              (querySection stubOkSearch) ++
            [skippedNote ((["a", "b", "c", "d"] : List String).length -
              MAX_QUERIES_PER_BATCH)])) :=
  ⟨by decide, by decide,
    search_tourism_batch_cap (some "k") stubOkSearch ["a", "b", "c", "d"]
      (by decide) (by decide)⟩

/-- C7: the output is always the per-query sections of the accepted
queries, in input order, each section depending only on that query and
its own search outcome; a successful query renders its summary and a
failing query renders an inline error line naming it — so one query's
failure never removes another query's section or aborts the batch. -/
theorem search_tourism_isolation (key : Option String)
    (search : String → Except PyExc TavilyResponse) (queries : List String)
    (hkey : (key.getD "").isEmpty = false) :
    (search_tourism key search queries).1 =
      String.intercalate "\n"
        ((queries.take MAX_QUERIES_PER_BATCH).map (querySection search) ++
          (if MAX_QUERIES_PER_BATCH < queries.length then
            [skippedNote (queries.length - MAX_QUERIES_PER_BATCH)]
          else [])) ∧
    (∀ q response, search q = .ok response →
      querySection search q = querySummary q response) ∧
    (∀ q e, search q = .error e →
      querySection search q = "Error searching \x27" ++ q ++ "\x27: " ++ e.str) := by
  refine ⟨?_, ?_, ?_⟩
  · by_cases h : MAX_QUERIES_PER_BATCH < queries.length <;>
      simp [search_tourism, hkey, h]
  · intro q response h
    simp [querySection, h]
  · intro q e h
    simp [querySection, h]

/-- Witness for `search_tourism_isolation`: a search client that fails
on the middle query of three. -/
theorem search_tourism_isolation_witness :
    (search_tourism (some "k") stubFailB ["a", "b", "c"]).1 =
      String.intercalate "\n"
        (((["a", "b", "c"] : List String).take MAX_QUERIES_PER_BATCH).map
            (querySection stubFailB) ++
          (if MAX_QUERIES_PER_BATCH < (["a", "b", "c"] : List String).length then
            [skippedNote ((["a", "b", "c"] : List String).length -
              MAX_QUERIES_PER_BATCH)]
          else [])) ∧
    querySection stubFailB "a" = querySummary "a" ⟨none, []⟩ ∧
    querySection stubFailB "b" =
      "Error searching \x27b\x27: " ++ (PyExc.err "boom").str :=
  ⟨(search_tourism_isolation (some "k") stubFailB ["a", "b", "c"] (by decide)).1,
    (search_tourism_isolation (some "k") stubFailB ["a", "b", "c"]
      (by decide)).2.1 "a" ⟨none, []⟩ (by simp [stubFailB]),
    (search_tourism_isolation (some "k") stubFailB ["a", "b", "c"]
      (by decide)).2.2 "b" (.err "boom") (by simp [stubFailB])⟩

/-- C8: when the search API key is absent (or empty, which Python
truthiness also rejects), the handler immediately returns the
misconfiguration error text as a successful result, and no query is
submitted to the search client. -/
theorem search_tourism_missing_key (key : Option String)
    (search : String → Except PyExc TavilyResponse) (queries : List String)
    (hkey : (key.getD "").isEmpty = true) :
    search_tourism key search queries =
      ("Error: Server misconfigured (Missing API Key).", []) := by
  simp [search_tourism, hkey]

/-- Witness for `search_tourism_missing_key`: the key is absent. -/
theorem search_tourism_missing_key_witness :
    ((none : Option String).getD "").isEmpty = true ∧
    search_tourism none stubOkSearch ["a"] =
      ("Error: Server misconfigured (Missing API Key).", []) :=
  ⟨by decide, search_tourism_missing_key none stubOkSearch ["a"] (by decide)⟩

/-- C9: the executor's extraction loop returns exactly the
concatenation, in arrival order, of the text of every content block of
type `"text"`; other block types are ignored, and the empty block list
yields the empty string. -/
theorem extractFinalText_concat (contents : List ContentBlock) :
    extractFinalText contents =
      String.join ((contents.filter fun c => c.type = "text").map fun c => c.text) ∧
    extractFinalText [] = "" := by
  refine ⟨?_, rfl⟩
  simpa using extractFinalText_foldl contents ""

/-- C10: the execution loop swallows every per-query exception, so for
any search client behaviour (here: one failing on every query with an
arbitrary exception) the handler still returns a text built from the
accepted queries, all of which were submitted; and the empty query list
yields the empty output with no sections and no skipped-count note. -/
theorem search_tourism_no_propagation (key : Option String)
    (search : String → Except PyExc TavilyResponse) (f : String → PyExc)
    (hkey : (key.getD "").isEmpty = false) :
    search_tourism key search [] = ("", []) ∧
    ∀ queries : List String,
      (search_tourism key (fun q => .error (f q)) queries).2 =
        queries.take MAX_QUERIES_PER_BATCH ∧
      (search_tourism key (fun q => .error (f q)) queries).1 =
        String.intercalate "\n"
          ((queries.take MAX_QUERIES_PER_BATCH).map
              (fun q => "Error searching \x27" ++ q ++ "\x27: " ++ (f q).str) ++
            (if MAX_QUERIES_PER_BATCH < queries.length then
              [skippedNote (queries.length - MAX_QUERIES_PER_BATCH)]
            else [])) := by
  have hq : (querySection fun q => Except.error (f q)) =
      fun q => "Error searching \x27" ++ q ++ "\x27: " ++ (f q).str :=
    funext fun _ => rfl
  refine ⟨?_, ?_⟩
  · simp [search_tourism, hkey]
    rfl
  · intro queries
    constructor
    · simp [search_tourism, hkey]
    · by_cases h : MAX_QUERIES_PER_BATCH < queries.length <;>
        simp [search_tourism, hkey, h, hq]

/-- Witness for `search_tourism_no_propagation`: a concrete key and an
all-failing search client. -/
theorem search_tourism_no_propagation_witness :
    search_tourism (some "k") stubOkSearch [] = ("", []) ∧
    (search_tourism (some "k") (fun q => .error (stubFailAll q)) ["a", "b"]).2 =
      (["a", "b"] : List String).take MAX_QUERIES_PER_BATCH ∧
    (search_tourism (some "k") (fun q => .error (stubFailAll q)) ["a", "b"]).1 =
      String.intercalate "\n"
        (((["a", "b"] : List String).take MAX_QUERIES_PER_BATCH).map
            (fun q => "Error searching \x27" ++ q ++ "\x27: " ++ (stubFailAll q).str) ++
          (if MAX_QUERIES_PER_BATCH < (["a", "b"] : List String).length then
            [skippedNote ((["a", "b"] : List String).length - MAX_QUERIES_PER_BATCH)]
          else [])) :=
  ⟨(search_tourism_no_propagation (some "k") stubOkSearch stubFailAll (by decide)).1,
    ((search_tourism_no_propagation (some "k") stubOkSearch stubFailAll
      (by decide)).2 ["a", "b"]).1,
    ((search_tourism_no_propagation (some "k") stubOkSearch stubFailAll
      (by decide)).2 ["a", "b"]).2⟩

set_option maxRecDepth 4000 in
/-- Witness for `clean_content_truncation`: a concrete 301-character
string is truncated to its first 300 characters plus the marker, and a
concrete short string passes through unchanged. -/
theorem clean_content_truncation_witness :
    clean_content (String.mk (List.replicate 301 'a')) =
      (String.mk (List.replicate 301 'a')).take MAX_CHARS_PER_RESULT ++ "..." ∧
    ((String.mk (List.replicate 301 'a')).take MAX_CHARS_PER_RESULT).length =
      MAX_CHARS_PER_RESULT ∧
    ((String.mk (List.replicate 301 'a')).take MAX_CHARS_PER_RESULT).data =
      (String.mk (List.replicate 301 'a')).data.take MAX_CHARS_PER_RESULT ∧
    clean_content "abc" = "abc" :=
  ⟨((clean_content_truncation (String.mk (List.replicate 301 'a'))).1 (by decide)).1,
    ((clean_content_truncation (String.mk (List.replicate 301 'a'))).1 (by decide)).2.1,
    ((clean_content_truncation (String.mk (List.replicate 301 'a'))).1 (by decide)).2.2,
    (clean_content_truncation "abc").2 (by decide)⟩

/-! ## Theorems about the `agent.py` workflow -/

/-- C1: for every user request and any behaviour of the external
collaborators, running phase 1 (`start`, which halts at the interrupt
before the executor) followed by a rejection decision emits no
subprocess spawn and no tool call: nothing reaches the Tool Process
Transport before approval. -/
theorem reject_never_invokes_tool (stubs : Stubs) (threadId userRequest : String)
    (store : Store) :
    ((startSession stubs emptyStore threadId userRequest).2 ++
        (decideApproval stubs store threadId false).2).all
      (fun e => !e.isToolEffect) = true := rfl

/-- C5 counterexample: with a transport whose handshake raises a plain
exception, `executor_node` re-raises that very exception, not a
`ToolExecutionError` wrapper — the raised exception is not of the
wrapper type. -/
theorem executor_wraps_counterexample :
    executorNodeCall stubTransportFail ["q1"] = .error (.err "boom") ∧
    raisedToolExecutionError (executorNodeCall stubTransportFail ["q1"]) = false :=
  ⟨rfl, rfl⟩

/-- C5 (amended): every exception raised during the handshake,
capability discovery, tool invocation, or extraction steps of
`executor_node` is caught, logged, and re-raised unchanged (the
original exception itself, not a `ToolExecutionError` wrapper), and an
executor failure is fatal for the session — the approved run surfaces
exactly that exception with a single tool invocation and no retry. -/
theorem executor_reraises_original (t : McpTransport) (queries : List String)
    (e : PyExc) (h : executorTryBlock t queries = .error e)
    (stubs : Stubs) (threadId userRequest : String)
    (h2 : stubs.runTool (stubs.plan userRequest).queries = .error e) :
    executorNodeCall t queries = .error e ∧
    (decideApproval stubs (startStore stubs threadId userRequest) threadId true).1 =
      .error e ∧
    ((decideApproval stubs (startStore stubs threadId userRequest) threadId
        true).2.countP Event.isToolCall) = 1 := by
  refine ⟨by simp [executorNodeCall, h], ?_, ?_⟩ <;>
    simp [startStore, startSession, decideApproval, execNodes, resumeNodes, runNode,
      graphNodes, interruptGate, putCheckpoint, h2, Event.isToolCall,
      List.countP_cons, List.countP_nil]

/-- Witness for `executor_reraises_original`: the failing handshake
transport and the failing tool stub. -/
theorem executor_reraises_original_witness :
    executorNodeCall stubTransportFail ["q1"] = .error (.err "boom") ∧
    (decideApproval stubsFailTool (startStore stubsFailTool "t1" "request") "t1"
        true).1 = .error (.err "boom") ∧
    ((decideApproval stubsFailTool (startStore stubsFailTool "t1" "request") "t1"
        true).2.countP Event.isToolCall) = 1 :=
  executor_reraises_original stubTransportFail ["q1"] (.err "boom") rfl
    stubsFailTool "t1" "request" rfl

/-- C3 counterexample: with deterministic stubs, the uninterrupted run
and the same-process approved resume both yield the artifact, but
after a process restart the in-memory `MemorySaver` of the new process
is empty, so resuming the session fails with `SessionNotFound` instead
of yielding the same final artifact. -/
theorem resume_after_restart_counterexample :
    (decideApproval stubsOk (startStore stubsOk "session-1" "request") "session-1"
        true).1.map Prod.fst = .ok (some ⟨"Rio de Janeiro", "overview"⟩) ∧
    (runAllNodes stubsOk graphNodes { user_request := some "request" }).1.map
        (fun s => s.final_itinerary) = .ok (some ⟨"Rio de Janeiro", "overview"⟩) ∧
    (decideApproval stubsOk
        (storeAfterRestart (startStore stubsOk "session-1" "request")) "session-1"
        true).1.map Prod.fst = .error (.err "SessionNotFound") ∧
    (Except.error (.err "SessionNotFound") :
        Except PyExc (Option TripItinerary)) ≠
      .ok (some ⟨"Rio de Janeiro", "overview"⟩) :=
  ⟨rfl, rfl, rfl, fun h => Except.noConfusion h⟩

/-- C3 (amended): resuming the approved session from the checkpoint
within the same process (the `MemorySaver` still holding it) yields
exactly the artifact of an uninterrupted run of the whole pipeline,
for any deterministic stubbed collaborators; but the store is
process-local, so after a process restart resume fails with
`SessionNotFound`. -/
theorem resume_same_process_refines (stubs : Stubs) (threadId userRequest : String) :
    (decideApproval stubs (startStore stubs threadId userRequest) threadId
        true).1.map Prod.fst =
      (runAllNodes stubs graphNodes { user_request := some userRequest }).1.map
        (fun s => s.final_itinerary) ∧
    (decideApproval stubs (storeAfterRestart (startStore stubs threadId userRequest))
        threadId true).1.map Prod.fst = .error (.err "SessionNotFound") := by
  constructor
  · cases hrt : stubs.runTool (stubs.plan userRequest).queries with
    | ok results =>
      simp [startStore, startSession, decideApproval, execNodes, resumeNodes,
        runAllNodes, runNode, graphNodes, interruptGate, putCheckpoint, hrt,
        Except.map]
    | error e =>
      simp [startStore, startSession, decideApproval, execNodes, resumeNodes,
        runAllNodes, runNode, graphNodes, interruptGate, putCheckpoint, hrt,
        Except.map]
  · simp [decideApproval, storeAfterRestart, emptyStore, Except.map]

theorem step_preserves_shape (stubs : Stubs) (userRequest : String)
    (c c2 : AgentState × List NodeName)
    (hshape : configShape stubs userRequest c) (hstep : stepConfig stubs c c2) :
    configShape stubs userRequest c2 ∧ extendsState c.1 c2.1 := by
  obtain ⟨s, pending⟩ := c
  obtain ⟨s2, pending2⟩ := c2
  obtain ⟨n, rest, ev, hp, hp2, hrun⟩ := hstep
  subst hp hp2
  rcases hshape with ⟨h1, h2⟩ | ⟨h1, h2⟩ | ⟨results, h1, hok, h2⟩ | ⟨results, h1, hok, h2⟩
  · simp only [graphNodes, List.cons.injEq] at h1
    obtain ⟨hn, hrest⟩ := h1
    subst hn hrest h2
    simp only [runNode, Prod.mk.injEq, Except.ok.injEq] at hrun
    obtain ⟨h3, h4⟩ := hrun
    subst h3
    constructor
    · right; left
      exact ⟨rfl, rfl⟩
    · refine ⟨?_, ?_, ?_, ?_⟩ <;> intro v hv <;> first | exact hv | simp at hv
  · simp only [List.cons.injEq] at h1
    obtain ⟨hn, hrest⟩ := h1
    subst hn hrest h2
    simp only [runNode] at hrun
    cases hrt : stubs.runTool (stubs.plan userRequest).queries with
    | ok results =>
      rw [hrt] at hrun
      simp only [Prod.mk.injEq, Except.ok.injEq] at hrun
      obtain ⟨h3, h4⟩ := hrun
      subst h3
      constructor
      · right; right; left
        exact ⟨results, rfl, hrt, rfl⟩
      · refine ⟨?_, ?_, ?_, ?_⟩ <;> intro v hv <;> first | exact hv | simp at hv
    | error e =>
      rw [hrt] at hrun
      simp at hrun
  · simp only [List.cons.injEq] at h1
    obtain ⟨hn, hrest⟩ := h1
    subst hn hrest h2
    simp only [runNode, Prod.mk.injEq, Except.ok.injEq] at hrun
    obtain ⟨h3, h4⟩ := hrun
    subst h3
    constructor
    · right; right; right
      exact ⟨results, rfl, hok, rfl⟩
    · refine ⟨?_, ?_, ?_, ?_⟩ <;> intro v hv <;> first | exact hv | simp at hv
  · simp at h1

theorem reachable_shape (stubs : Stubs) (userRequest : String)
    (c : AgentState × List NodeName)
    (h : ReachableConfig stubs userRequest c) : configShape stubs userRequest c := by
  induction h with
  | init => exact Or.inl ⟨rfl, rfl⟩
  | step c c2 hr hs ih =>
    exact (step_preserves_shape stubs userRequest c c2 ih hs).1

/-- C2: in every configuration a session can reach, the state fields
are populated strictly in pipeline order (`search_results` is never
set while `search_strategy` is unset, and `final_itinerary` is never
set while `search_results` is unset), and every further orchestration
step preserves the exact value of every field already set. -/
theorem pipeline_state_order_invariant (stubs : Stubs) (userRequest : String)
    (c : AgentState × List NodeName)
    (h : ReachableConfig stubs userRequest c) :
    orderedState c.1 ∧
    ∀ c2, stepConfig stubs c c2 → extendsState c.1 c2.1 := by
  have hshape := reachable_shape stubs userRequest c h
  constructor
  · obtain ⟨s, pending⟩ := c
    rcases hshape with ⟨h1, h2⟩ | ⟨h1, h2⟩ | ⟨results, h1, hok, h2⟩ |
      ⟨results, h1, hok, h2⟩ <;> subst h2 <;> simp [orderedState]
  · intro c2 hstep
    exact (step_preserves_shape stubs userRequest c c2 hshape hstep).2

/-- Witness for `pipeline_state_order_invariant`: the freshly started
session is ordered, and its first step (running the planner) keeps the
`user_request` value intact. -/
theorem pipeline_state_order_invariant_witness :
    orderedState ({ user_request := some "request" } : AgentState) ∧
    extendsState ({ user_request := some "request" } : AgentState)
      ({ user_request := some "request",
         search_strategy := some (stubsOk.plan "request") } : AgentState) :=
  ⟨(pipeline_state_order_invariant stubsOk "request" _ ReachableConfig.init).1,
    (pipeline_state_order_invariant stubsOk "request" _ ReachableConfig.init).2
      ({ user_request := some "request",
         search_strategy := some (stubsOk.plan "request") }, [.executor, .writer])
      ⟨.planner, [.executor, .writer], [.llmCall .planner], rfl, rfl, rfl⟩⟩

end TravelArchitect
